import Mathlib

/-!
Verification of the snjs client core against its specification.

The definitions below are a shallow embedding of the TypeScript source:
JavaScript objects used as string-keyed maps become association lists,
optional / possibly-undefined fields become `Option`, methods that can throw
become `Except String`, and the instance state of a service class is passed
explicitly as a structure.  Methods of external collaborators (the crypto
adapter, the model manager) that the embedded code calls are either embedded
from their own source when it is available, or modelled from the
specification where noted.
-/

deriving instance DecidableEq for Except

namespace Snjs

/-- JavaScript truthiness of a possibly-undefined boolean field:
undefined and false are falsy. -/
def truthy (o : Option Bool) : Bool := o.getD false

/-- JavaScript truthiness of a possibly-undefined string field:
undefined and the empty string are falsy. -/
def truthyStr (o : Option String) : Bool :=
  match o with
  | none => false
  | some s => !s.isEmpty

/-! ## Reference graph of the ItemManager (src/lib/services/item_manager.ts)

`referenceMap` and `inverseReferenceMap` are plain JavaScript objects keyed by
uuid whose values are arrays of uuids.  They are embedded as association
lists; `mapSet` overwrites in place (keeping key order) or appends a new key,
matching JavaScript property assignment. -/

/-- A references entry of an item content: `{uuid, content_type}`. -/
structure ContentReference where
  uuid : String
  content_type : String
deriving DecidableEq, Repr

/-- The view of an SNItem that the reference-index code reads:
its uuid, its deleted flag and its content references. -/
structure RefItem where
  uuid : String
  deleted : Bool
  references : List ContentReference
deriving DecidableEq, Repr

/-- A JavaScript object used as a uuid-keyed map of uuid arrays. -/
abbrev RefMap := List (String × List String)

/-- Property read `m[k]`: `none` models `undefined`. -/
def mapGet (m : RefMap) (k : String) : Option (List String) :=
  (m.find? (fun e => e.1 = k)).map (·.2)

/-- Property write `m[k] = v`: overwrite in place, or append a new key. -/
def mapSet (m : RefMap) (k : String) (v : List String) : RefMap :=
  match m with
  | [] => [(k, v)]
  | e :: rest => if e.1 = k then (k, v) :: rest else e :: mapSet rest k v

/-- Property delete `delete m[k]`. -/
def mapDel (m : RefMap) (k : String) : RefMap :=
  m.filter (fun e => e.1 ≠ k)

/-- Modelled from the spec: `removeFromArray` from the utils module (the
utils source is not under src).  Per the specification the deletion path
detaches a uuid from an index entry, so it is modelled as removing the first
occurrence of the value, a no-op when the value is absent. -/
def removeFromArray (arr : List String) (v : String) : List String :=
  arr.erase v

/-- The two reference indices held by the ItemManager. -/
structure ItemManagerState where
  referenceMap : RefMap
  inverseReferenceMap : RefMap
deriving DecidableEq, Repr

/-- `ItemManager.establishReferenceIndex` (item_manager.ts lines 157 to 168):
for each entry of `item.references`, the direct index entry for the item is
assigned and the item uuid is pushed onto the inverse entry of the referent.
Both assignments happen inside the loop over the references, so an item with
an empty reference list updates neither index. -/
def establishReferenceIndex (st : ItemManagerState) (item : RefItem) :
    ItemManagerState :=
  item.references.foldl
    (fun st reference =>
      let st : ItemManagerState :=
        { st with referenceMap :=
            mapSet st.referenceMap item.uuid (item.references.map (·.uuid)) }
      let index := (mapGet st.inverseReferenceMap reference.uuid).getD []
      { st with inverseReferenceMap :=
          mapSet st.inverseReferenceMap reference.uuid (index ++ [item.uuid]) })
    st

/-- `ItemManager.deestablishReferenceIndexForDeletedItem` (item_manager.ts
lines 170 to 190): remove the deleted uuid from the inverse entries of the
items it referenced, delete its direct entry, remove it from the direct
entries of the items referencing it, and delete its inverse entry.
`removeFromArray` on a missing entry operates on a fresh empty array and is
therefore a no-op, exactly as in the source. -/
def deestablishReferenceIndexForDeletedItem (st : ItemManagerState)
    (uuid : String) : ItemManagerState :=
  let directReferences := (mapGet st.referenceMap uuid).getD []
  let inv := directReferences.foldl
    (fun inv d =>
      match mapGet inv d with
      | some arr => mapSet inv d (removeFromArray arr uuid)
      | none => inv)
    st.inverseReferenceMap
  let fwd := mapDel st.referenceMap uuid
  let inverseReferences := (mapGet inv uuid).getD []
  let fwd := inverseReferences.foldl
    (fun fwd r =>
      match mapGet fwd r with
      | some arr => mapSet fwd r (removeFromArray arr uuid)
      | none => fwd)
    fwd
  { referenceMap := fwd, inverseReferenceMap := mapDel inv uuid }

/-- The reference-index maintenance loop of `ItemManager.setPayloads`
(item_manager.ts lines 231 to 237), applied to a batch of items arriving
from an insertion or change event: deleted items are detached, live items
are (re)established. -/
def setPayloadsReferenceStep (st : ItemManagerState) (items : List RefItem) :
    ItemManagerState :=
  items.foldl
    (fun st item =>
      if item.deleted then
        deestablishReferenceIndexForDeletedItem st item.uuid
      else
        establishReferenceIndex st item)
    st

/-- Initial empty index state. -/
def emptyItemManagerState : ItemManagerState :=
  { referenceMap := [], inverseReferenceMap := [] }

/-- Item A referencing item B, used as a concrete scenario. -/
def itemA_refB : RefItem :=
  { uuid := "A", deleted := false,
    references := [{ uuid := "B", content_type := "Note" }] }

/-- Item A changed so that it now references item C instead of B. -/
def itemA_refC : RefItem :=
  { uuid := "A", deleted := false,
    references := [{ uuid := "C", content_type := "Note" }] }

/-- Item A changed so that its reference list is now empty. -/
def itemA_noRefs : RefItem :=
  { uuid := "A", deleted := false, references := [] }

/-! ## Content types (src/lib/models/content_types.ts)

The string enum `ContentTypes`; its values are pairwise distinct strings, so
an inductive type with decidable equality is a faithful embedding. -/

inductive ContentType where
  | Any
  | Item
  | RootKey
  | ItemsKey
  | EncryptedStorage
  | Note
  | Tag
  | SmartTag
  | Component
  | Editor
  | ActionsExtension
  | UserPrefs
  | Privileges
  | HistorySession
  | Theme
  | Mfa
  | ServerExtension
  | FilesafeCredentials
  | FilesafeFileMetadata
  | FilesafeIntegration
  | ExtensionRepo
deriving DecidableEq, Repr

/-! ## Observer notification of the ItemManager (item_manager.ts)

`addObserver` accepts `ContentType | ContentType[]` as the filter
(lines 131 to 143); `notifyObservers` (lines 243 to 258) selects the
relevant items with
`observer.contentType === ContentType.Any || observer.contentType === item.content_type`. -/

/-- The observer filter: a single content type or an array of content types,
as accepted by `ItemManager.addObserver`. -/
inductive CTFilter where
  | single (ct : ContentType)
  | array (cts : List ContentType)
deriving DecidableEq, Repr

/-- JavaScript strict equality between the stored filter (a string or an
array value) and a content-type string: an array value is compared by
reference and is never strictly equal to a string, so only the `single`
case can succeed. -/
def filterStrictEq (f : CTFilter) (ct : ContentType) : Bool :=
  match f with
  | .single a => a = ct
  | .array _ => false

/-- The item view read by `notifyObservers`: uuid and content type. -/
structure NotifyItem where
  uuid : String
  content_type : ContentType
deriving DecidableEq, Repr

/-- The filter expression inside `notifyObservers`:
`observer.contentType === ContentType.Any || observer.contentType === item.content_type`. -/
def relevantItemsForObserver (f : CTFilter) (items : List NotifyItem) :
    List NotifyItem :=
  items.filter (fun item =>
    filterStrictEq f ContentType.Any || filterStrictEq f item.content_type)

/-- `ItemManager.notifyObservers`: every registered observer has its callback
invoked, receiving the items relevant to its filter.  The result lists the
calls made, one per observer in registration order. -/
def notifyObservers (observers : List CTFilter) (items : List NotifyItem) :
    List (CTFilter × List NotifyItem) :=
  observers.map (fun o => (o, relevantItemsForObserver o items))

/-! ## Dirty set (item_manager.ts lines 467 to 473) -/

/-- The item view read by `getDirtyItems`: the boolean flags of an SNItem.
On an item each flag reads through to its payload field; JavaScript
truthiness collapses an undefined flag and false, embedded here as `Bool`. -/
structure ItemFlags where
  uuid : String
  dirty : Bool
  dummy : Bool
  errorDecrypting : Bool
  deleted : Bool
deriving DecidableEq, Repr

/-- `ItemManager.getDirtyItems`: filters the collection items by
`item.dirty && !item.dummy && (!item.errorDecrypting || item.deleted)`. -/
def getDirtyItems (items : List ItemFlags) : List ItemFlags :=
  items.filter (fun item =>
    item.dirty && !item.dummy && (!item.errorDecrypting || item.deleted))

/-! ## Payload model (payload generator source, RawPayload and the field sets)

A payload content value is either a structured object (carrying a references
array among other keys) or a version-prefixed string. -/

inductive ContentValue where
  | obj (references : List ContentReference) (rest : List (String × String))
  | str (s : String)
deriving DecidableEq, Repr

/-- A PurePayload with the Max field set: every field of `RawPayload`.
`none` models an undefined field. -/
structure PurePayload where
  uuid : Option String := none
  content_type : Option ContentType := none
  content : Option ContentValue := none
  items_key_id : Option String := none
  enc_item_key : Option String := none
  created_at : Option Nat := none
  updated_at : Option Nat := none
  deleted : Option Bool := none
  auth_hash : Option String := none
  auth_params : Option String := none
  dirty : Option Bool := none
  dirtiedDate : Option Nat := none
  errorDecrypting : Option Bool := none
  errorDecryptingValueChanged : Option Bool := none
  waitingForKey : Option Bool := none
  dummy : Option Bool := none
  lastSyncBegan : Option Nat := none
  lastSyncEnd : Option Nat := none
deriving DecidableEq, Repr

/-- The payload field enumeration used by the field-set lists. -/
inductive PayloadField where
  | Uuid
  | ContentType
  | ItemsKeyId
  | EncItemKey
  | Content
  | CreatedAt
  | UpdatedAt
  | Deleted
  | Legacy003AuthHash
  | Legacy003AuthParams
  | Dirty
  | DirtiedDate
  | ErrorDecrypting
  | ErrorDecryptingChanged
  | WaitingForKey
  | Dummy
  | LastSyncBegan
  | LastSyncEnd
deriving DecidableEq, Repr

/-- `pickByCopy(object, fields)`: keeps exactly the listed fields of a
payload, every other field is absent in the copy. -/
def pickByCopy (p : PurePayload) (fields : List PayloadField) : PurePayload :=
  { uuid := if fields.contains .Uuid then p.uuid else none
    content_type := if fields.contains .ContentType then p.content_type else none
    content := if fields.contains .Content then p.content else none
    items_key_id := if fields.contains .ItemsKeyId then p.items_key_id else none
    enc_item_key := if fields.contains .EncItemKey then p.enc_item_key else none
    created_at := if fields.contains .CreatedAt then p.created_at else none
    updated_at := if fields.contains .UpdatedAt then p.updated_at else none
    deleted := if fields.contains .Deleted then p.deleted else none
    auth_hash := if fields.contains .Legacy003AuthHash then p.auth_hash else none
    auth_params := if fields.contains .Legacy003AuthParams then p.auth_params else none
    dirty := if fields.contains .Dirty then p.dirty else none
    dirtiedDate := if fields.contains .DirtiedDate then p.dirtiedDate else none
    errorDecrypting := if fields.contains .ErrorDecrypting then p.errorDecrypting else none
    errorDecryptingValueChanged :=
      if fields.contains .ErrorDecryptingChanged then p.errorDecryptingValueChanged else none
    waitingForKey := if fields.contains .WaitingForKey then p.waitingForKey else none
    dummy := if fields.contains .Dummy then p.dummy else none
    lastSyncBegan := if fields.contains .LastSyncBegan then p.lastSyncBegan else none
    lastSyncEnd := if fields.contains .LastSyncEnd then p.lastSyncEnd else none }

/-- `MaxPayloadFields`: all fields. -/
def MaxPayloadFields : List PayloadField :=
  [.Uuid, .ContentType, .ItemsKeyId, .EncItemKey, .Content, .CreatedAt,
   .UpdatedAt, .Deleted, .Legacy003AuthHash, .Legacy003AuthParams, .Dirty,
   .DirtiedDate, .ErrorDecrypting, .ErrorDecryptingChanged, .WaitingForKey,
   .Dummy, .LastSyncBegan, .LastSyncEnd]

/-- `EncryptionParametersFields`. -/
def EncryptionParametersFields : List PayloadField :=
  [.Uuid, .ItemsKeyId, .EncItemKey, .Content, .Legacy003AuthHash,
   .ErrorDecrypting, .ErrorDecryptingChanged, .WaitingForKey]

/-- `FilePayloadFields`. -/
def FilePayloadFields : List PayloadField :=
  [.Uuid, .ContentType, .ItemsKeyId, .EncItemKey, .Content, .CreatedAt,
   .UpdatedAt, .Legacy003AuthHash]

/-- `StoragePayloadFields`. -/
def StoragePayloadFields : List PayloadField :=
  [.Uuid, .ContentType, .ItemsKeyId, .EncItemKey, .Content, .CreatedAt,
   .UpdatedAt, .Deleted, .Legacy003AuthHash, .Legacy003AuthParams, .Dirty,
   .DirtiedDate, .ErrorDecrypting, .WaitingForKey]

/-- `ServerPayloadFields`: the fields that survive projection to the
server format. -/
def ServerPayloadFields : List PayloadField :=
  [.Uuid, .ContentType, .ItemsKeyId, .EncItemKey, .Content, .CreatedAt,
   .UpdatedAt, .Deleted, .Legacy003AuthHash]

/-- `SessionHistoryPayloadFields`. -/
def SessionHistoryPayloadFields : List PayloadField :=
  [.Uuid, .ContentType, .Content, .UpdatedAt]

/-- `ComponentRetrievedPayloadFields`. -/
def ComponentRetrievedPayloadFields : List PayloadField :=
  [.Uuid, .Content, .CreatedAt]

/-- `ServerSavedPayloadFields`. -/
def ServerSavedPayloadFields : List PayloadField :=
  [.Uuid, .ContentType, .UpdatedAt, .Deleted, .Dirty, .LastSyncEnd]

/-- The encryption intents.  The intent enum itself is not under src; the
names are taken from their uses in the payload generator and the protocol
service. -/
inductive EncryptionIntent where
  | Sync
  | SyncDecrypted
  | LocalStorageEncrypted
  | LocalStoragePreferEncrypted
  | LocalStorageDecrypted
  | FileEncrypted
  | FilePreferEncrypted
  | FileDecrypted
deriving DecidableEq, Repr

/-- The payload sources (the source file with `PayloadSource`). -/
inductive PayloadSource where
  | RemoteRetrieved
  | RemoteSaved
  | LocalSaved
  | LocalRetrieved
  | LocalDirtied
  | ComponentRetrieved
  | DesktopInstalled
  | RemoteActionRetrieved
  | FileImport
  | RemoteConflict
  | ImportConflict
  | SavedOrSaving
  | DecryptedTransient
  | ConflictUuid
  | ConflictData
  | LocalChanged
  | SessionHistory
deriving DecidableEq, Repr

/-- `payloadFieldsForIntent`: selects the field set for an intent; throws on
an unhandled intent (unreachable for the eight declared intents). -/
def payloadFieldsForIntent (intent : EncryptionIntent) :
    Except String (List PayloadField) :=
  if intent = .FileEncrypted ∨ intent = .FileDecrypted ∨
      intent = .FilePreferEncrypted then
    .ok FilePayloadFields
  else if intent = .LocalStoragePreferEncrypted ∨
      intent = .LocalStorageDecrypted ∨ intent = .LocalStorageEncrypted then
    .ok StoragePayloadFields
  else if intent = .Sync ∨ intent = .SyncDecrypted then
    .ok ServerPayloadFields
  else
    .error "No payload fields found for intent"

/-- `payloadFieldsForSource`: selects the field set for a payload source;
throws on an unhandled source. -/
def payloadFieldsForSource (source : PayloadSource) :
    Except String (List PayloadField) :=
  if source = .FileImport then
    .ok FilePayloadFields
  else if source = .SessionHistory then
    .ok SessionHistoryPayloadFields
  else if source = .ComponentRetrieved then
    .ok ComponentRetrievedPayloadFields
  else if source = .LocalRetrieved ∨ source = .LocalDirtied then
    .ok StoragePayloadFields
  else if source = .RemoteRetrieved ∨ source = .ConflictData ∨
      source = .ConflictUuid then
    .ok ServerPayloadFields
  else if source = .LocalSaved ∨ source = .RemoteSaved then
    .ok ServerSavedPayloadFields
  else
    .error "No payload fields found for source"

/-! ## Payload formats, versions and key objects -/

/-- The payload content formats. -/
inductive PayloadFormat where
  | DecryptedBareObject
  | DecryptedBase64String
  | EncryptedString
  | Deleted
deriving DecidableEq, Repr

/-- Modelled from the spec: the `format` getter of `PurePayload` (the class
source is not under src).  Per the format descriptions, a structured content
is a DecryptedBareObject, a string content with the 000 prefix is a
DecryptedBase64String, any other string is a version-prefixed
EncryptedString, and an absent content marks a deleted payload. -/
def PurePayload.format (p : PurePayload) : PayloadFormat :=
  match p.content with
  | some (.obj _ _) => .DecryptedBareObject
  | some (.str s) =>
    /- the 000-prefix test: the first three characters equal 000 -/
    if s.take 3 = "000" then .DecryptedBase64String else .EncryptedString
  | none => .Deleted

/-- Modelled from the spec: the `version` getter of `PurePayload`; ciphertext
strings are version-prefixed, so the version is the first three characters of
the content string. -/
def PurePayload.version (p : PurePayload) : String :=
  match p.content with
  | some (.str s) => s.take 3
  | _ => ""

/-- Whether a content value is a string (the `isString(content)` check). -/
def isStringContent (c : Option ContentValue) : Bool :=
  match c with
  | some (.str _) => true
  | _ => false

/-- JavaScript truthiness of the content field: undefined and the empty
string are falsy; an object value is always truthy. -/
def truthyContent (c : Option ContentValue) : Bool :=
  match c with
  | none => false
  | some (.str s) => !s.isEmpty
  | some (.obj _ _) => true

/-- `ProtocolVersions.V004`, returned by
`SNProtocolService.getLatestVersion`. -/
def latestVersion : String := "004"

/-- The view of an SNRootKey that the embedded service code reads. -/
structure RootKeyView where
  version : String
deriving DecidableEq, Repr

/-- The view of an SNItemsKey item that the embedded service code reads.
`updated_at` is the sync timestamp of the underlying item
(`none` models null). -/
structure ItemsKeyView where
  uuid : String
  version : String
  isDefault : Bool
  updated_at : Option Nat := none
deriving DecidableEq, Repr

/-- Modelled from the spec: the `neverSynced` getter of an items key (the
item model carrying it is not under src): true when updated_at is epoch or
null. -/
def ItemsKeyView.neverSynced (k : ItemsKeyView) : Bool :=
  k.updated_at.isNone || k.updated_at = some 0

/-- A key handed to the operators: either the root key or an items key. -/
inductive ServiceKey where
  | root (rk : RootKeyView)
  | items (k : ItemsKeyView)
deriving DecidableEq, Repr

/-- The version of a service key (`key.version` in the service code). -/
def ServiceKey.version : ServiceKey → String
  | .root rk => rk.version
  | .items k => k.version

/-- A partial payload override, as passed to the payload copy constructors:
a present field replaces the corresponding payload field on merge. -/
structure PayloadOverride where
  content : Option ContentValue := none
  items_key_id : Option String := none
  enc_item_key : Option String := none
  auth_hash : Option String := none
  errorDecrypting : Option Bool := none
  errorDecryptingValueChanged : Option Bool := none
  waitingForKey : Option Bool := none
  dirty : Option Bool := none
deriving DecidableEq, Repr

/-- Merge an override into a payload: each override field that is present
replaces the payload field, everything else is kept (the `deepMerge` of the
raw payload with the override copy, for the flat fields the embedded code
touches). -/
def applyOverride (p : PurePayload) (o : PayloadOverride) : PurePayload :=
  { p with
    content := o.content <|> p.content
    items_key_id := o.items_key_id <|> p.items_key_id
    enc_item_key := o.enc_item_key <|> p.enc_item_key
    auth_hash := o.auth_hash <|> p.auth_hash
    errorDecrypting := o.errorDecrypting <|> p.errorDecrypting
    errorDecryptingValueChanged :=
      o.errorDecryptingValueChanged <|> p.errorDecryptingValueChanged
    waitingForKey := o.waitingForKey <|> p.waitingForKey
    dirty := o.dirty <|> p.dirty }

/-- `CreateMaxPayloadFromAnyObject(object, undefined, undefined, override)`:
keeps the Max field set (every field) and merges the override. -/
def CreateMaxPayloadFromAnyObject (p : PurePayload) (o : PayloadOverride) :
    PurePayload :=
  applyOverride (pickByCopy p MaxPayloadFields) o

/-- `CreateEncryptionParameters(raw)`: the projection of a payload to the
EncryptionParameters field set. -/
def CreateEncryptionParameters (p : PurePayload) : PurePayload :=
  pickByCopy p EncryptionParametersFields

/-- `CreateIntentPayloadFromObject(object, intent, override)`: projects to
the field set of the intent and merges the override.  The field lookup
cannot fail for a declared intent; an unhandled intent propagates the
exception. -/
def CreateIntentPayloadFromObject (p : PurePayload) (intent : EncryptionIntent)
    (o : PayloadOverride) : Except String PurePayload :=
  match payloadFieldsForIntent intent with
  | .error e => .error e
  | .ok fields => .ok (applyOverride (pickByCopy p fields) o)

/-! ## Protocol service: key selection and payload encryption / decryption
(the protocol service source, `SNProtocolService`)

The service instance state and its collaborators (root key, items keys,
operator dispatch) are passed explicitly.  The per-version operator calls
are external to the claims settled here and appear as function fields. -/

/-- `SNProtocolService.contentTypeUsesRootKeyEncryption`: only items keys and
encrypted storage are encrypted directly with the root key. -/
def contentTypeUsesRootKeyEncryption (ct : Option ContentType) : Bool :=
  ct = some ContentType.ItemsKey || ct = some ContentType.EncryptedStorage

/-- Modelled from the spec: `isDecryptedIntent` from the intents module (not
under src).  Per the intent table, the decrypted intents are SyncDecrypted,
LocalStorageDecrypted and FileDecrypted. -/
def isDecryptedIntent (intent : EncryptionIntent) : Bool :=
  intent = .SyncDecrypted ∨ intent = .LocalStorageDecrypted ∨
    intent = .FileDecrypted

/-- Modelled from the spec: `intentRequiresEncryption` from the intents
module (not under src).  Per the intent table, the intents with a required
key are Sync, LocalStorageEncrypted and FileEncrypted. -/
def intentRequiresEncryption (intent : EncryptionIntent) : Bool :=
  intent = .Sync ∨ intent = .LocalStorageEncrypted ∨ intent = .FileEncrypted

/-- `SNProtocolService.payloadContentFormatForIntent`: maps an intent and
key presence to the produced content format, throwing on an unsupported
combination. -/
def payloadContentFormatForIntent (intent : EncryptionIntent)
    (key : Option ServiceKey) : Except String PayloadFormat :=
  match key with
  | none =>
    if intent = .LocalStorageDecrypted ∨
        intent = .LocalStoragePreferEncrypted ∨
        intent = .FileDecrypted ∨ intent = .FilePreferEncrypted then
      .ok .DecryptedBareObject
    else if intent = .SyncDecrypted then
      .ok .DecryptedBase64String
    else
      .error "Unhandled decrypted case in protocolService.payloadContentFormatForIntent."
  | some _ =>
    if intent = .Sync ∨ intent = .FileEncrypted ∨
        intent = .FilePreferEncrypted ∨ intent = .LocalStorageEncrypted ∨
        intent = .LocalStoragePreferEncrypted then
      .ok .EncryptedString
    else
      .error "Unhandled encrypted case in protocolService.payloadContentFormatForIntent."

/-- The protocol service state and collaborators used on the encryption
path.  `generateEncryptedParameters` stands for the dispatched operator call
(version, payload, format, key); `none` inside a successful result models an
operator returning undefined. -/
structure EncryptEnv where
  rootKey : Option RootKeyView
  defaultItemsKey : Option ItemsKeyView
  generateEncryptedParameters :
    String → PurePayload → PayloadFormat → Option ServiceKey →
      Except String (Option PayloadOverride)

/-- `SNProtocolService.keyToUseForEncryptionOfPayload`: root key for
root-key content types (throwing when it is required but absent), the
current default items key otherwise. -/
def keyToUseForEncryptionOfPayload (env : EncryptEnv) (payload : PurePayload)
    (intent : EncryptionIntent) : Except String (Option ServiceKey) :=
  if contentTypeUsesRootKeyEncryption payload.content_type then
    match env.rootKey with
    | none =>
      if intentRequiresEncryption intent then
        .error "Root key encryption is required but no root key is available."
      else
        .ok none
    | some rk => .ok (some (.root rk))
  else
    .ok (env.defaultItemsKey.map .items)

/-- `SNProtocolService.payloadByEncryptingPayload`: returns an errored
payload unchanged, looks up a key when none is supplied and the intent is
not decrypted, validates the inputs, dispatches to the operator and projects
the result to the intent field set. -/
def payloadByEncryptingPayload (env : EncryptEnv) (payload : PurePayload)
    (intent : EncryptionIntent) (key? : Option ServiceKey) :
    Except String PurePayload :=
  if truthy payload.errorDecrypting then
    .ok payload
  else
    match (if key?.isNone && !isDecryptedIntent intent then
            keyToUseForEncryptionOfPayload env payload intent
          else .ok key?) with
    | .error e => .error e
    | .ok key =>
      if key.isNone && intentRequiresEncryption intent then
        .error "Attempting to generate encrypted payload with no key."
      else if payload.format ≠ .DecryptedBareObject then
        .error "Attempting to encrypt already encrypted payload."
      else if payload.content.isNone then
        .error "Attempting to encrypt payload with no content."
      else if !truthyStr payload.uuid then
        .error "Attempting to encrypt payload with no uuid."
      else
        let version := match key with
          | some k => k.version
          | none => latestVersion
        match payloadContentFormatForIntent intent key with
        | .error e => .error e
        | .ok format =>
          match env.generateEncryptedParameters version payload format key with
          | .error e => .error e
          | .ok none => .error "Unable to generate encryption parameters"
          | .ok (some encryptionParameters) =>
            CreateIntentPayloadFromObject payload intent encryptionParameters

/-- The protocol service state and collaborators used on the decryption
path.  `generateDecryptedParameters` stands for the dispatched operator
call. -/
structure DecryptEnv where
  rootKey : Option RootKeyView
  itemsKeys : List ItemsKeyView
  generateDecryptedParameters :
    PurePayload → Option ServiceKey → Except String PayloadOverride

/-- `SNProtocolService.itemsKeyForPayload`: the items key whose uuid matches
the items_key_id of the payload. -/
def itemsKeyForPayload (env : DecryptEnv) (payload : PurePayload) :
    Option ItemsKeyView :=
  env.itemsKeys.find? (fun k => some k.uuid = payload.items_key_id)

/-- `SNProtocolService.defaultItemsKeyForItemVersion`: the first items key
whose version matches. -/
def defaultItemsKeyForItemVersion (env : DecryptEnv) (version : String) :
    Option ItemsKeyView :=
  env.itemsKeys.find? (fun k => k.version = version)

/-- `SNProtocolService.keyToUseForDecryptionOfPayload`: root key for
root-key content types; the items key named by items_key_id when present;
otherwise, for a payload of the latest protocol version an exception is
thrown, and for earlier versions the items key matching the payload version
is returned. -/
def keyToUseForDecryptionOfPayload (env : DecryptEnv) (payload : PurePayload) :
    Except String (Option ServiceKey) :=
  if contentTypeUsesRootKeyEncryption payload.content_type then
    .ok (env.rootKey.map .root)
  else if truthyStr payload.items_key_id then
    .ok ((itemsKeyForPayload env payload).map .items)
  else if payload.version = latestVersion then
    .error "No associated key found for item encrypted with latest protocol version."
  else
    .ok ((defaultItemsKeyForItemVersion env payload.version).map .items)

/-- `SNProtocolService.payloadByDecryptingPayload`: throws on falsy content
(absent or the empty string, the JavaScript guard reads
`if (!payload.content)`), passes a bare-object payload through, looks up a
key for an encrypted string when none is supplied (returning a payload
flagged waitingForKey and errorDecrypting when the lookup yields nothing),
and otherwise dispatches to the operator and merges the decrypted
parameters. -/
def payloadByDecryptingPayload (env : DecryptEnv) (payload : PurePayload)
    (key? : Option ServiceKey) : Except String PurePayload :=
  if !truthyContent payload.content then
    .error "Attempting to decrypt payload that has no content."
  else if payload.format = .DecryptedBareObject then
    .ok payload
  else
    match (if key?.isNone ∧ payload.format = .EncryptedString then
            (keyToUseForDecryptionOfPayload env payload).map
              (fun k => (k, k.isNone))
          else .ok (key?, false)) with
    | .error e => .error e
    | .ok (_, true) =>
      .ok (CreateMaxPayloadFromAnyObject payload
            { waitingForKey := some true, errorDecrypting := some true })
    | .ok (key, false) =>
      match env.generateDecryptedParameters
              (CreateEncryptionParameters payload) key with
      | .error e => .error e
      | .ok decryptedParameters =>
        .ok (CreateMaxPayloadFromAnyObject payload decryptedParameters)

/-- The loop body of `SNProtocolService.payloadsByDecryptingPayloads` for
one array entry.  A null entry, a deleted payload without content and a
payload whose content is not a string are pushed through unchanged; a
decryption exception is caught and replaced by a copy flagged
errorDecrypting, with errorDecryptingValueChanged recording whether the flag
flipped. -/
def decryptBatchElement (env : DecryptEnv) (key? : Option ServiceKey)
    (encryptedPayload? : Option PurePayload) : Option PurePayload :=
  match encryptedPayload? with
  | none => none
  | some encryptedPayload =>
    if encryptedPayload.deleted = some true ∧
        encryptedPayload.content.isNone then
      some encryptedPayload
    else if !isStringContent encryptedPayload.content then
      some encryptedPayload
    else
      match payloadByDecryptingPayload env encryptedPayload key? with
      | .ok decryptedPayload => some decryptedPayload
      | .error _ =>
        some (CreateMaxPayloadFromAnyObject encryptedPayload
              { errorDecrypting := some true,
                errorDecryptingValueChanged :=
                  some (!truthy encryptedPayload.errorDecrypting) })

/-- `SNProtocolService.payloadsByDecryptingPayloads`: the batch never
aborts; every entry is handled by the per-payload policy above, preserving
counts. -/
def payloadsByDecryptingPayloads (env : DecryptEnv)
    (payloads : List (Option PurePayload)) (key? : Option ServiceKey) :
    List (Option PurePayload) :=
  payloads.map (decryptBatchElement env key?)

/-! ## Key mode state machine and setNewRootKey (protocol service source) -/

/-- The `KeyMode` enum of the protocol service. -/
inductive KeyMode where
  | RootKeyNone
  | RootKeyOnly
  | RootKeyPlusWrapper
  | WrapperOnly
deriving DecidableEq, Repr

/-- Key params are only checked for presence and persisted by
`setNewRootKey`; the portable value is opaque here. -/
structure RootKeyParamsView where
  version : String
deriving DecidableEq, Repr

/-- The protocol service state read and written by `setNewRootKey`:
the key mode, the in-memory root key, and the items keys currently held by
the model manager. -/
structure KeyServiceState where
  keyMode : KeyMode
  rootKey : Option RootKeyView
  itemsKeys : List ItemsKeyView
deriving DecidableEq, Repr

/-- `SNProtocolService.reencryptItemsKeys`: when any items keys exist they
are all marked dirty (via setItemsDirty); the result is the list of items
keys marked dirty. -/
def reencryptItemsKeys (itemsKeys : List ItemsKeyView) : List ItemsKeyView :=
  if itemsKeys.length > 0 then itemsKeys else []

/-- The outcome of a successful `setNewRootKey` call: the updated service
state and the persistence side effects it performed. -/
structure SetRootKeyEffects where
  keyMode : KeyMode
  rootKey : Option RootKeyView
  /-- the RootKeyParams storage value was written (Nonwrapped) -/
  persistedRootKeyParams : Bool
  /-- the plaintext root key was saved to the OS keychain -/
  savedRootKeyToKeychain : Bool
  /-- the root key was wrapped with the wrapping key and persisted -/
  wrappedAndPersistedRootKey : Bool
  /-- the items keys marked dirty for re-upload -/
  dirtiedItemsKeys : List ItemsKeyView
deriving DecidableEq, Repr

/-- `SNProtocolService.setNewRootKey(key, keyParams, wrappingKey?)`: guards,
key-mode transition, persistence of the key params, then either the
keychain write (RootKeyOnly) or the wrap-and-persist write
(RootKeyPlusWrapper, throwing when the wrapping key is missing), and finally
the re-dirtying of all items keys.  The root key identity guard compares the
stored key with the argument (reference equality in the source, embedded as
value equality). -/
def setNewRootKey (st : KeyServiceState) (key : RootKeyView)
    (keyParams : Option RootKeyParamsView) (wrappingKey : Option RootKeyView) :
    Except String SetRootKeyEffects :=
  if keyParams.isNone then
    .error "keyParams must be supplied if setting root key."
  else if st.rootKey = some key then
    .error "Attempting to set root key as same current value."
  else
    let newMode : KeyMode :=
      match st.keyMode with
      | .WrapperOnly => .RootKeyPlusWrapper
      | .RootKeyNone => .RootKeyOnly
      | .RootKeyOnly => .RootKeyOnly
      | .RootKeyPlusWrapper => .RootKeyPlusWrapper
    if newMode = .RootKeyPlusWrapper ∧ wrappingKey.isNone then
      .error "wrappingKey must be supplied"
    else
      .ok { keyMode := newMode
            rootKey := some key
            persistedRootKeyParams := true
            savedRootKeyToKeychain := newMode = .RootKeyOnly
            wrappedAndPersistedRootKey := newMode = .RootKeyPlusWrapper
            dirtiedItemsKeys := reencryptItemsKeys st.itemsKeys }

/-! ## Download-first sync completion (protocol service source) -/

/-- The effects of `handleDownloadFirstSyncCompletion`: the items keys it
deleted and whether it created a new default items key. -/
structure DownloadFirstEffects where
  deletedKeys : List ItemsKeyView
  createdNewDefaultItemsKey : Bool
deriving DecidableEq, Repr

/-- `SNProtocolService.handleDownloadFirstSyncCompletion`: identifies the
never-synced items keys; when a previously-synced default key exists all of
them are deleted; otherwise, when a root key is present, the never-synced
keys whose version differs from the root key version are deleted, and a new
default items key is created when the `allItemsKeys` list captured at entry
was empty (the length test reads the snapshot taken before the
deletions). -/
def handleDownloadFirstSyncCompletion (allItemsKeys : List ItemsKeyView)
    (rootKey : Option RootKeyView) : DownloadFirstEffects :=
  let neverSynced := allItemsKeys.filter (fun k => k.neverSynced)
  let defaultSyncedKey :=
    allItemsKeys.find? (fun k => !k.neverSynced && k.isDefault)
  if defaultSyncedKey.isSome then
    { deletedKeys := neverSynced, createdNewDefaultItemsKey := false }
  else
    match rootKey with
    | none => { deletedKeys := [], createdNewDefaultItemsKey := false }
    | some rk =>
      let toDelete := neverSynced.filter (fun k => k.version ≠ rk.version)
      { deletedKeys := toDelete
        createdNewDefaultItemsKey := allItemsKeys.length = 0 }

/-! ## Protocol operator 001: IV handling (the operator source)

`decryptText` and `encryptText` obtain the IV buffer with
`hexStringToArrayBuffer(iv || "")` and then run
`if(!ivData) { ivData = new ArrayBuffer(16); }`.  The hex adapter returns a
buffer object, which is truthy in JavaScript whatever its byteLength, so the
guard cannot fire; had it fired, the assignment to the const binding would
raise a TypeError before the 16-byte buffer could be used. -/

/-- The numeric value of a hex digit character (0 for other characters). -/
def hexDigitToNat (c : Char) : Nat :=
  if c.isDigit then c.toNat - 48
  else if 'a' ≤ c ∧ c ≤ 'f' then c.toNat - 87
  else if 'A' ≤ c ∧ c ≤ 'F' then c.toNat - 55
  else 0

/-- Decode consecutive hex digit pairs into bytes. -/
def hexPairsToBytes : List Char → List Nat
  | c1 :: c2 :: rest => (hexDigitToNat c1 * 16 + hexDigitToNat c2) :: hexPairsToBytes rest
  | _ => []

/-- Modelled from the spec: `hexStringToArrayBuffer` of the external crypto
adapter (hex utility): decodes a hex string into a byte buffer; the empty
string decodes to the empty buffer. -/
def hexStringToArrayBuffer (s : String) : List Nat :=
  hexPairsToBytes s.data

/-- JavaScript truthiness of an ArrayBuffer value: an object is always
truthy, regardless of its byteLength. -/
def arrayBufferFalsy (_ : List Nat) : Bool := false

/-- The arguments of an AES-CBC primitive invocation. -/
structure AesCbcCall where
  text : String
  keyData : List Nat
  ivData : List Nat
deriving DecidableEq, Repr

/-- `SNProtocolOperator001.decryptText`: builds the key and IV buffers and
invokes `aes256CbcDecrypt`; the result is the invocation made.  The guard
`if(!ivData)` is evaluated on the buffer returned by the hex adapter; were
it to fire, the assignment to the const binding `ivData` would raise a
TypeError. -/
def decryptText001 (contentCiphertext : String) (encryptionKey : String)
    (iv : Option String) : Except String AesCbcCall :=
  let keyData := hexStringToArrayBuffer encryptionKey
  let ivData := hexStringToArrayBuffer ((iv.getD ""))
  if arrayBufferFalsy ivData then
    .error "TypeError: Assignment to constant variable."
  else
    .ok { text := contentCiphertext, keyData := keyData, ivData := ivData }

/-- `SNProtocolOperator001.encryptText`: same IV handling as `decryptText`,
invoking `aes256CbcEncrypt`. -/
def encryptText001 (text : String) (rawKey : String) (iv : Option String) :
    Except String AesCbcCall :=
  let keyData := hexStringToArrayBuffer rawKey
  let ivData := hexStringToArrayBuffer ((iv.getD ""))
  if arrayBufferFalsy ivData then
    .error "TypeError: Assignment to constant variable."
  else
    .ok { text := text, keyData := keyData, ivData := ivData }

/-- The 16-byte all-zero IV that the spec says is substituted. -/
def zeroIV16 : List Nat := List.replicate 16 0

/-! ## Concrete inputs used by the closed theorems below -/

/-- An encryption environment with no keys and an operator stub. -/
def envEncNoKeys : EncryptEnv :=
  { rootKey := none
    defaultItemsKey := none
    generateEncryptedParameters := fun _ _ _ _ => .error "external operator" }

/-- A payload flagged errorDecrypting, with ciphertext content. -/
def pErrored : PurePayload :=
  { uuid := some "u-err", content_type := some .Note,
    content := some (.str "004:nonce:ct:auth"), errorDecrypting := some true }

/-- A decryption environment with no root key, no items keys, and an
operator stub that fails. -/
def envDecEmpty : DecryptEnv :=
  { rootKey := none
    itemsKeys := []
    generateDecryptedParameters := fun _ _ => .error "external operator" }

/-- An items key used as an explicitly supplied decryption key. -/
def ikSupplied : ItemsKeyView :=
  { uuid := "ik-w", version := "004", isDefault := true, updated_at := some 5 }

/-- A deleted payload with no content. -/
def pDeletedNoContent : PurePayload :=
  { uuid := some "u-del", content_type := some .Note, deleted := some true }

/-- A payload whose content is a structured object rather than a string. -/
def pBareObject : PurePayload :=
  { uuid := some "u-obj", content_type := some .Note,
    content := some (.obj [] []) }

/-- An encrypted-string payload on which the operator stub fails. -/
def pCipherString : PurePayload :=
  { uuid := some "u-str", content_type := some .Note,
    content := some (.str "004:nonce:ct:auth"),
    items_key_id := some "ik-w" }

/-- A latest-version encrypted payload without items_key_id: the key lookup
for it throws instead of flagging the payload. -/
def p004NoKeyId : PurePayload :=
  { uuid := some "u-004", content_type := some .Note,
    content := some (.str "004:nonce:ct:auth") }

/-- A pre-004 encrypted payload without items_key_id. -/
def p003NoKeyId : PurePayload :=
  { uuid := some "u-003", content_type := some .Note,
    content := some (.str "003:auth:u-003:iv:ct") }

/-- A dirty, errored, deleted item: uploadable only because it is
deleted. -/
def itemDirtyErroredDeleted : ItemFlags :=
  { uuid := "u-dirty", dirty := true, dummy := false,
    errorDecrypting := true, deleted := true }

/-- A never-synced items key (epoch updated_at) of version 003. -/
def ik003NeverSynced : ItemsKeyView :=
  { uuid := "ik-003", version := "003", isDefault := true,
    updated_at := some 0 }

/-- A root key of the latest version. -/
def rk004 : RootKeyView := { version := "004" }

/-- A service state with an account root key and one items key, used to
witness the setNewRootKey contract. -/
def stRootKeyOnly : KeyServiceState :=
  { keyMode := .RootKeyOnly
    rootKey := some { version := "003" }
    itemsKeys := [ik003NeverSynced] }

/-- An observer item of content type Note. -/
def noteItem : NotifyItem := { uuid := "n-1", content_type := .Note }

/-- The effects of a setNewRootKey call that ends in mode RootKeyOnly. -/
def rootKeyOnlyEffects (key : RootKeyView) (itemsKeys : List ItemsKeyView) :
    SetRootKeyEffects :=
  { keyMode := .RootKeyOnly, rootKey := some key,
    persistedRootKeyParams := true, savedRootKeyToKeychain := true,
    wrappedAndPersistedRootKey := false, dirtiedItemsKeys := itemsKeys }

/-- The effects of a setNewRootKey call that ends in mode
RootKeyPlusWrapper. -/
def rootKeyPlusWrapperEffects (key : RootKeyView) (itemsKeys : List ItemsKeyView) :
    SetRootKeyEffects :=
  { keyMode := .RootKeyPlusWrapper, rootKey := some key,
    persistedRootKeyParams := true, savedRootKeyToKeychain := false,
    wrappedAndPersistedRootKey := true, dirtiedItemsKeys := itemsKeys }

/-! # Theorems -/

/-- Projection to the Max field set keeps every field. -/
theorem pickByCopy_maxFields_id (p : PurePayload) :
    pickByCopy p MaxPayloadFields = p := rfl

/-- Marking the items keys dirty touches exactly the existing items keys. -/
theorem reencryptItemsKeys_eq (l : List ItemsKeyView) :
    reencryptItemsKeys l = l := by
  cases l <;> simp [reencryptItemsKeys]

/-- Claim C1: the claimed invariant of the two reference indices fails on
the code.  Processing the insertion of item A referencing B followed by a
change of A now referencing C leaves A inside the inverse entry of B while
the forward entry of A no longer contains B, so the biconditional
membership fails; re-processing the unchanged item duplicates A in the
inverse entry of B; and a change emptying the reference list of A leaves
the stale forward entry, so a live forward entry does not track the current
references.  The claim describes the intent stated in the index doc
comments of the source; the code violates it. -/
theorem referenceIndex_divergence_on_change :
    (mapGet (setPayloadsReferenceStep emptyItemManagerState
        [itemA_refB, itemA_refC]).inverseReferenceMap "B" = some ["A"] ∧
      mapGet (setPayloadsReferenceStep emptyItemManagerState
        [itemA_refB, itemA_refC]).referenceMap "A" = some ["C"]) ∧
    mapGet (setPayloadsReferenceStep emptyItemManagerState
        [itemA_refB, itemA_refB]).inverseReferenceMap "B" = some ["A", "A"] ∧
    (mapGet (setPayloadsReferenceStep emptyItemManagerState
        [itemA_refB, itemA_noRefs]).referenceMap "A" = some ["B"] ∧
      itemA_noRefs.references = []) := by
  decide

/-- Claim C2: encrypting a payload whose errorDecrypting flag is set
returns the payload itself unchanged, whatever the intent, the supplied key
and the service state. -/
theorem payloadByEncryptingPayload_errored_unchanged (env : EncryptEnv)
    (payload : PurePayload) (intent : EncryptionIntent)
    (key? : Option ServiceKey) (h : payload.errorDecrypting = some true) :
    payloadByEncryptingPayload env payload intent key? = .ok payload := by
  unfold payloadByEncryptingPayload
  simp [truthy, h]

/-- Claim C2 witness: a concrete errored payload is returned unchanged by
encryption with the Sync intent. -/
theorem payloadByEncryptingPayload_errored_unchanged_witness :
    pErrored.errorDecrypting = some true ∧
    payloadByEncryptingPayload envEncNoKeys pErrored .Sync none = .ok pErrored :=
  ⟨rfl, payloadByEncryptingPayload_errored_unchanged envEncNoKeys pErrored
    .Sync none rfl⟩

/-- Claim C3: the batch decryption policy.  The output has the same length
as the input (the batch never aborts); a deleted payload with no content is
passed through unchanged; a payload whose content is not a string is passed
through unchanged; and when decrypting a single (string-content) payload
throws, that payload alone is output with errorDecrypting set, its content
and uuid preserved, and errorDecryptingValueChanged true exactly when the
errorDecrypting flag was previously not set. -/
theorem payloadsByDecryptingPayloads_batch_policy (env : DecryptEnv)
    (key? : Option ServiceKey) (payloads : List (Option PurePayload)) :
    (payloadsByDecryptingPayloads env payloads key?).length = payloads.length ∧
    (∀ (i : Nat) (ep : PurePayload), payloads[i]? = some (some ep) →
      ((ep.deleted = some true ∧ ep.content = none) →
        (payloadsByDecryptingPayloads env payloads key?)[i]? = some (some ep)) ∧
      (isStringContent ep.content = false →
        (payloadsByDecryptingPayloads env payloads key?)[i]? = some (some ep)) ∧
      (∀ e, isStringContent ep.content = true →
        payloadByDecryptingPayload env ep key? = .error e →
        ∃ out : PurePayload,
          (payloadsByDecryptingPayloads env payloads key?)[i]? = some (some out) ∧
          out.content = ep.content ∧
          out.errorDecrypting = some true ∧
          out.errorDecryptingValueChanged = some (!truthy ep.errorDecrypting) ∧
          out.uuid = ep.uuid)) := by
  constructor
  · simp [payloadsByDecryptingPayloads]
  intro i ep h
  have hmap : (payloadsByDecryptingPayloads env payloads key?)[i]? =
      some (decryptBatchElement env key? (some ep)) := by
    simp [payloadsByDecryptingPayloads, List.getElem?_map, h]
  refine ⟨?_, ?_, ?_⟩
  · intro hdel
    rw [hmap]
    simp [decryptBatchElement, hdel.1, hdel.2]
  · intro hstr
    rw [hmap]
    by_cases hc : ep.deleted = some true ∧ ep.content.isNone
    · simp [decryptBatchElement, hc]
    · simp [decryptBatchElement, hc, hstr]
  · intro e hstr herr
    rw [hmap]
    have hcn : ep.content.isNone = false := by
      cases hcv : ep.content with
      | none => rw [hcv] at hstr; simp [isStringContent] at hstr
      | some v => simp
    refine ⟨CreateMaxPayloadFromAnyObject ep
      { errorDecrypting := some true,
        errorDecryptingValueChanged := some (!truthy ep.errorDecrypting) },
      ?_, ?_, ?_, ?_, ?_⟩
    · simp [decryptBatchElement, hcn, hstr, herr]
    · simp [CreateMaxPayloadFromAnyObject, applyOverride, pickByCopy_maxFields_id]
    · simp [CreateMaxPayloadFromAnyObject, applyOverride, pickByCopy_maxFields_id]
    · simp [CreateMaxPayloadFromAnyObject, applyOverride, pickByCopy_maxFields_id]
    · simp [CreateMaxPayloadFromAnyObject, applyOverride, pickByCopy_maxFields_id]

/-- Claim C3 witness: a batch of a deleted payload without content, a
bare-object payload and an encrypted payload on which the operator throws:
the failing payload is output flagged, with its content preserved. -/
theorem payloadsByDecryptingPayloads_batch_policy_witness :
    ∃ out : PurePayload,
      (payloadsByDecryptingPayloads envDecEmpty
        [some pDeletedNoContent, some pBareObject, some pCipherString]
        (some (.items ikSupplied)))[2]? = some (some out) ∧
      out.content = pCipherString.content ∧
      out.errorDecrypting = some true ∧
      out.errorDecryptingValueChanged = some (!truthy pCipherString.errorDecrypting) ∧
      out.uuid = pCipherString.uuid :=
  ((payloadsByDecryptingPayloads_batch_policy envDecEmpty
    (some (.items ikSupplied))
    [some pDeletedNoContent, some pBareObject, some pCipherString]).2
      2 pCipherString (by decide)).2.2
    "external operator" (by decide) (by decide)

/-- Claim C4 counterexample: an encrypted-string payload of the latest
protocol version without items_key_id, in a state with no root key and no
items keys, is a payload for which no decryption key can be located; the
claim says decryption returns it flagged waitingForKey and errorDecrypting,
but the code throws from the key lookup instead. -/
theorem payloadByDecryptingPayload_missing_key_counterexample :
    payloadByDecryptingPayload envDecEmpty p004NoKeyId none =
      .error "No associated key found for item encrypted with latest protocol version." := by
  decide

/-- Claim C4 (amended): for every encrypted-string payload with truthy
(non-empty) content for which the key lookup finds nothing without throwing
(no root key for root-key content types; an items_key_id that matches no
items key; or, for a payload older than the latest protocol version without
items_key_id, no items key of the payload version), decryption returns a
payload flagged waitingForKey and errorDecrypting with the content
untouched.  Excluded: a payload with falsy content (absent or empty
string), on which the no-content guard throws first, and a latest-version
payload without items_key_id, for which the key lookup throws. -/
theorem payloadByDecryptingPayload_missing_key_flags (env : DecryptEnv)
    (payload : PurePayload)
    (h0 : truthyContent payload.content = true)
    (h1 : payload.format = .EncryptedString)
    (h2 : (contentTypeUsesRootKeyEncryption payload.content_type = true ∧
            env.rootKey = none)
        ∨ (contentTypeUsesRootKeyEncryption payload.content_type = false ∧
            truthyStr payload.items_key_id = true ∧
            itemsKeyForPayload env payload = none)
        ∨ (contentTypeUsesRootKeyEncryption payload.content_type = false ∧
            truthyStr payload.items_key_id = false ∧
            payload.version ≠ latestVersion ∧
            defaultItemsKeyForItemVersion env payload.version = none)) :
    ∃ out : PurePayload, payloadByDecryptingPayload env payload none = .ok out ∧
      out.waitingForKey = some true ∧ out.errorDecrypting = some true ∧
      out.content = payload.content ∧ out.uuid = payload.uuid := by
  have hkey : keyToUseForDecryptionOfPayload env payload = .ok none := by
    rcases h2 with ⟨ha, hb⟩ | ⟨ha, hb, hc⟩ | ⟨ha, hb, hc, hd⟩
    · simp [keyToUseForDecryptionOfPayload, ha, hb]
    · simp [keyToUseForDecryptionOfPayload, ha, hb, hc]
    · simp [keyToUseForDecryptionOfPayload, ha, hb, hc, hd]
  refine ⟨CreateMaxPayloadFromAnyObject payload
    { waitingForKey := some true, errorDecrypting := some true },
    ?_, ?_, ?_, ?_, ?_⟩
  · unfold payloadByDecryptingPayload
    simp [h0, h1, hkey, Except.map]
  · simp [CreateMaxPayloadFromAnyObject, applyOverride, pickByCopy_maxFields_id]
  · simp [CreateMaxPayloadFromAnyObject, applyOverride, pickByCopy_maxFields_id]
  · simp [CreateMaxPayloadFromAnyObject, applyOverride, pickByCopy_maxFields_id]
  · simp [CreateMaxPayloadFromAnyObject, applyOverride, pickByCopy_maxFields_id]

/-- Claim C4 witness: a 003 encrypted payload without items_key_id in a
state with no items keys comes back flagged waitingForKey and
errorDecrypting with its content untouched. -/
theorem payloadByDecryptingPayload_missing_key_flags_witness :
    ∃ out : PurePayload,
      payloadByDecryptingPayload envDecEmpty p003NoKeyId none = .ok out ∧
      out.waitingForKey = some true ∧ out.errorDecrypting = some true ∧
      out.content = p003NoKeyId.content ∧ out.uuid = p003NoKeyId.uuid :=
  payloadByDecryptingPayload_missing_key_flags envDecEmpty p003NoKeyId
    (by decide) (by decide)
    (.inr (.inr ⟨by decide, by decide, by decide, by decide⟩))

/-- Claim C5: the dirty set is exactly the items with dirty set, dummy
clear, and errorDecrypting clear or deleted set; consequently an item in
the dirty set that is flagged errorDecrypting is deleted. -/
theorem getDirtyItems_characterization (items : List ItemFlags) (i : ItemFlags) :
    (i ∈ getDirtyItems items ↔
      i ∈ items ∧ (i.dirty = true ∧ i.dummy = false ∧
        (i.errorDecrypting = false ∨ i.deleted = true))) ∧
    (i ∈ getDirtyItems items → i.errorDecrypting = true → i.deleted = true) := by
  have hiff : i ∈ getDirtyItems items ↔
      i ∈ items ∧ (i.dirty = true ∧ i.dummy = false ∧
        (i.errorDecrypting = false ∨ i.deleted = true)) := by
    simp [getDirtyItems, List.mem_filter, Bool.and_eq_true, Bool.or_eq_true,
      Bool.not_eq_true']
    tauto
  refine ⟨hiff, ?_⟩
  intro hmem herr
  rcases (hiff.mp hmem).2.2.2 with hfalse | hdel
  · rw [herr] at hfalse; cases hfalse
  · exact hdel

/-- Claim C5 witness: a dirty, errored, deleted item is in the dirty set,
and by the characterization it can only be there because it is deleted. -/
theorem getDirtyItems_characterization_witness :
    itemDirtyErroredDeleted ∈ getDirtyItems [itemDirtyErroredDeleted] ∧
    itemDirtyErroredDeleted.errorDecrypting = true ∧
    itemDirtyErroredDeleted.deleted = true :=
  have hmem : itemDirtyErroredDeleted ∈ getDirtyItems [itemDirtyErroredDeleted] := by
    decide
  ⟨hmem, rfl,
    (getDirtyItems_characterization [itemDirtyErroredDeleted]
      itemDirtyErroredDeleted).2 hmem rfl⟩

/-- Claim C6: the download-first reconciliation diverges from the claim.
With a single never-synced items key of version 003, no previously-synced
default key, and a root key of version 004, the code deletes the key, after
which no items keys remain, yet it does not create a new default items key:
the creation test reads the length of the items-key list captured before
the deletions (1 here), contradicting the adjacent source comment that a
new key is created when 0 items keys remain. -/
theorem handleDownloadFirstSyncCompletion_no_new_key_divergence :
    handleDownloadFirstSyncCompletion [ik003NeverSynced] (some rk004) =
      { deletedKeys := [ik003NeverSynced], createdNewDefaultItemsKey := false } ∧
    ik003NeverSynced.neverSynced = true ∧
    ik003NeverSynced.version ≠ rk004.version := by
  decide

/-- Claim C7: setNewRootKey transitions the key mode (None to RootKeyOnly,
WrapperOnly to RootKeyPlusWrapper, the two root-key modes unchanged),
persists the key params, persists the keychain value exactly in the
wrapperless resulting mode and the wrapped root key exactly in the wrapper
resulting mode, and marks every existing items key dirty; the wrapping key
is required exactly when the resulting mode has a wrapper, with an error
raised when it is missing there. -/
theorem setNewRootKey_contract (st : KeyServiceState) (key : RootKeyView)
    (kp : RootKeyParamsView) (wk : Option RootKeyView)
    (h : st.rootKey ≠ some key) :
    ((st.keyMode = .RootKeyNone ∨ st.keyMode = .RootKeyOnly) →
      ∃ eff : SetRootKeyEffects, setNewRootKey st key (some kp) wk = .ok eff ∧
        eff.keyMode = .RootKeyOnly ∧ eff.rootKey = some key ∧
        eff.persistedRootKeyParams = true ∧
        eff.savedRootKeyToKeychain = true ∧
        eff.wrappedAndPersistedRootKey = false ∧
        eff.dirtiedItemsKeys = st.itemsKeys) ∧
    ((st.keyMode = .WrapperOnly ∨ st.keyMode = .RootKeyPlusWrapper) →
      (∀ w, wk = some w →
        ∃ eff : SetRootKeyEffects,
          setNewRootKey st key (some kp) (some w) = .ok eff ∧
          eff.keyMode = .RootKeyPlusWrapper ∧ eff.rootKey = some key ∧
          eff.persistedRootKeyParams = true ∧
          eff.savedRootKeyToKeychain = false ∧
          eff.wrappedAndPersistedRootKey = true ∧
          eff.dirtiedItemsKeys = st.itemsKeys) ∧
      (wk = none →
        setNewRootKey st key (some kp) none =
          .error "wrappingKey must be supplied")) := by
  have hre := reencryptItemsKeys_eq st.itemsKeys
  constructor
  · rintro (hm | hm) <;>
      exact ⟨rootKeyOnlyEffects key st.itemsKeys,
        by simp [setNewRootKey, h, hm, hre, rootKeyOnlyEffects],
        rfl, rfl, rfl, rfl, rfl, rfl⟩
  · rintro (hm | hm) <;>
      exact ⟨fun w hw =>
        ⟨rootKeyPlusWrapperEffects key st.itemsKeys,
          by simp [setNewRootKey, h, hm, hre, rootKeyPlusWrapperEffects],
          rfl, rfl, rfl, rfl, rfl, rfl⟩,
        fun hw => by simp [setNewRootKey, h, hm]⟩

/-- Claim C7 witness: setting a new 004 root key from mode RootKeyOnly with
no wrapping key succeeds, keeps mode RootKeyOnly, persists the params,
saves the keychain value, does not wrap, and dirties the existing items
key. -/
theorem setNewRootKey_contract_witness :
    ∃ eff : SetRootKeyEffects,
      setNewRootKey stRootKeyOnly rk004 (some { version := "004" }) none =
        .ok eff ∧
      eff.keyMode = .RootKeyOnly ∧ eff.rootKey = some rk004 ∧
      eff.persistedRootKeyParams = true ∧ eff.savedRootKeyToKeychain = true ∧
      eff.wrappedAndPersistedRootKey = false ∧
      eff.dirtiedItemsKeys = stRootKeyOnly.itemsKeys :=
  (setNewRootKey_contract stRootKeyOnly rk004 { version := "004" } none
    (by decide)).1 (Or.inr rfl)

/-- Claim C8: the server field set (used for the Sync and SyncDecrypted
intents and the remote-retrieved and conflict sources) contains none of the
client-only fields, and a payload projected with it keeps exactly uuid,
content type, items_key_id, enc_item_key, content, created_at, updated_at,
deleted and the legacy auth hash. -/
theorem serverFormat_excludes_client_fields :
    payloadFieldsForIntent .Sync = .ok ServerPayloadFields ∧
    payloadFieldsForIntent .SyncDecrypted = .ok ServerPayloadFields ∧
    payloadFieldsForSource .RemoteRetrieved = .ok ServerPayloadFields ∧
    payloadFieldsForSource .ConflictData = .ok ServerPayloadFields ∧
    payloadFieldsForSource .ConflictUuid = .ok ServerPayloadFields ∧
    ServerPayloadFields = [.Uuid, .ContentType, .ItemsKeyId, .EncItemKey,
      .Content, .CreatedAt, .UpdatedAt, .Deleted, .Legacy003AuthHash] ∧
    PayloadField.Dirty ∉ ServerPayloadFields ∧
    PayloadField.DirtiedDate ∉ ServerPayloadFields ∧
    PayloadField.LastSyncBegan ∉ ServerPayloadFields ∧
    PayloadField.LastSyncEnd ∉ ServerPayloadFields ∧
    PayloadField.WaitingForKey ∉ ServerPayloadFields ∧
    PayloadField.ErrorDecrypting ∉ ServerPayloadFields ∧
    PayloadField.ErrorDecryptingChanged ∉ ServerPayloadFields ∧
    PayloadField.Dummy ∉ ServerPayloadFields ∧
    ∀ p : PurePayload,
      (pickByCopy p ServerPayloadFields).dirty = none ∧
      (pickByCopy p ServerPayloadFields).dirtiedDate = none ∧
      (pickByCopy p ServerPayloadFields).lastSyncBegan = none ∧
      (pickByCopy p ServerPayloadFields).lastSyncEnd = none ∧
      (pickByCopy p ServerPayloadFields).waitingForKey = none ∧
      (pickByCopy p ServerPayloadFields).errorDecrypting = none ∧
      (pickByCopy p ServerPayloadFields).errorDecryptingValueChanged = none ∧
      (pickByCopy p ServerPayloadFields).dummy = none ∧
      (pickByCopy p ServerPayloadFields).uuid = p.uuid ∧
      (pickByCopy p ServerPayloadFields).content_type = p.content_type ∧
      (pickByCopy p ServerPayloadFields).items_key_id = p.items_key_id ∧
      (pickByCopy p ServerPayloadFields).enc_item_key = p.enc_item_key ∧
      (pickByCopy p ServerPayloadFields).content = p.content ∧
      (pickByCopy p ServerPayloadFields).created_at = p.created_at ∧
      (pickByCopy p ServerPayloadFields).updated_at = p.updated_at ∧
      (pickByCopy p ServerPayloadFields).deleted = p.deleted ∧
      (pickByCopy p ServerPayloadFields).auth_hash = p.auth_hash := by
  refine ⟨rfl, rfl, rfl, rfl, rfl, rfl, by decide, by decide, by decide,
    by decide, by decide, by decide, by decide, by decide, fun p => ?_⟩
  exact ⟨rfl, rfl, rfl, rfl, rfl, rfl, rfl, rfl, rfl, rfl, rfl, rfl, rfl,
    rfl, rfl, rfl, rfl⟩

/-- Claim C9 counterexample: in the 001 operator, a decryption and an
encryption with an absent IV invoke AES-CBC with the empty buffer obtained
by hex-decoding the empty string, not with a 16-byte all-zero IV as
claimed: a buffer object is truthy whatever its byteLength, so the
substitution branch never executes. -/
theorem operator001_zero_iv_counterexample :
    decryptText001 "ct" "aa" none =
      .ok { text := "ct", keyData := [170], ivData := [] } ∧
    encryptText001 "pt" "aa" none =
      .ok { text := "pt", keyData := [170], ivData := [] } ∧
    ([] : List Nat) ≠ zeroIV16 := by
  decide

/-- Claim C9 (amended): for every 001 ciphertext produced or consumed with
an absent (null or empty) IV, the operation proceeds without failing, but
with the zero-length IV buffer decoded from the empty string rather than a
substituted 16-byte zero IV, whose fallback branch is unreachable. -/
theorem operator001_absent_iv_empty_buffer (ct k : String) (iv : Option String)
    (h : iv = none ∨ iv = some "") :
    decryptText001 ct k iv =
      .ok { text := ct, keyData := hexStringToArrayBuffer k, ivData := [] } ∧
    encryptText001 ct k iv =
      .ok { text := ct, keyData := hexStringToArrayBuffer k, ivData := [] } ∧
    ([] : List Nat) ≠ zeroIV16 := by
  have h0 : hexStringToArrayBuffer "" = [] := by decide
  rcases h with h | h <;> subst h <;>
    exact ⟨by simp [decryptText001, arrayBufferFalsy, h0],
      by simp [encryptText001, arrayBufferFalsy, h0], by decide⟩

/-- Claim C9 witness: concrete inputs with a null IV. -/
theorem operator001_absent_iv_empty_buffer_witness :
    decryptText001 "ct" "aa" none =
      .ok { text := "ct", keyData := hexStringToArrayBuffer "aa", ivData := [] } ∧
    encryptText001 "ct" "aa" none =
      .ok { text := "ct", keyData := hexStringToArrayBuffer "aa", ivData := [] } ∧
    ([] : List Nat) ≠ zeroIV16 :=
  operator001_absent_iv_empty_buffer "ct" "aa" none (Or.inl rfl)

/-- Claim C10: an observer registered with an array filter never receives
any item (the strict-equality match cannot succeed for an array), although
its callback is still invoked with the empty list; an observer registered
with a single content type receives exactly the items matching Any or
their content type; and every registered observer is notified. -/
theorem observer_array_filter_matching (cts : List ContentType)
    (c : ContentType) (observers : List CTFilter) (items : List NotifyItem) :
    relevantItemsForObserver (.array cts) items = [] ∧
    (CTFilter.array cts ∈ observers →
      (CTFilter.array cts, ([] : List NotifyItem)) ∈
        notifyObservers observers items) ∧
    relevantItemsForObserver (.single c) items =
      items.filter (fun item =>
        decide (c = ContentType.Any) || decide (c = item.content_type)) ∧
    (notifyObservers observers items).length = observers.length := by
  have harr : relevantItemsForObserver (.array cts) items = [] := by
    simp [relevantItemsForObserver, filterStrictEq]
  refine ⟨harr, ?_, rfl, by simp [notifyObservers]⟩
  intro hmem
  have hcall : (CTFilter.array cts, relevantItemsForObserver (.array cts) items) ∈
      notifyObservers observers items :=
    List.mem_map.mpr ⟨_, hmem, rfl⟩
  rwa [harr] at hcall

/-- Claim C10 witness: an observer registered with the array filter [Note]
is notified with an empty item list even when a Note item is in the
batch. -/
theorem observer_array_filter_matching_witness :
    (CTFilter.array [ContentType.Note], ([] : List NotifyItem)) ∈
      notifyObservers [CTFilter.array [ContentType.Note]] [noteItem] :=
  (observer_array_filter_matching [ContentType.Note] ContentType.Note
    [CTFilter.array [ContentType.Note]] [noteItem]).2.1 (by decide)

end Snjs
